import Mathlib

/-!
Verification of the capability-discovery client session manager implemented
in `streamlit_app.py`: the memoized initializer `initialize_client_agent`
(guarded by `st.cache_resource`), and the per-turn request handler that
redirects the process-wide stdout into a fresh string buffer around the
agent call and appends to the session-scoped message list.

External collaborators (the `A2AClientToolProvider` discovery call, the
`BedrockModel`/`Agent` constructors, and the agent invocation itself) are
modelled as explicit environment inputs describing their outcome; the
definitions below embed the control flow of `streamlit_app.py` over those
inputs.
-/

/-- The fixed discovery endpoint (`SUPERVISOR_URL` in the source). -/
def SUPERVISOR_URL : String := "http://localhost:5000"

/-- The model backend identifier passed to `BedrockModel`. -/
def MODEL_ID : String := "eu.anthropic.claude-sonnet-4-20250514-v1:0"

/-- The system prompt passed to `Agent`. -/
def SYSTEM_PROMPT : String :=
  "You are a command-line assistant. Your job is to analyze the user's instruction and execute the most appropriate tool. Use the tools available to you to find the supervisor agent and delegate the task to it."

/-- A named operation discovered from the remote registry. -/
structure Tool where
  name : String
deriving DecidableEq

/-- The local client agent built after a successful discovery
(the `Agent(...)` value constructed in `initialize_client_agent`). -/
structure ClientAgent where
  system_prompt : String
  tools : List Tool
  model_id : String
deriving DecidableEq

/-- Outcome of the external calls made inside `initialize_client_agent`:
either the `A2AClientToolProvider` constructor raises (a connection
failure), or it succeeds with a list of discovered tools, in which case the
subsequent `BedrockModel`/`Agent` construction may itself raise
(`backendRaises = some detail`) or succeed (`backendRaises = none`). -/
inductive DiscEnv where
  | providerRaises (detail : String)
  | providerOk (tools : List Tool) (backendRaises : Option String)
deriving DecidableEq

deriving instance DecidableEq for Except

/-- What one call of `initialize_client_agent` produces: a returned value
(`Except.ok`: `some agent` on success, `none` after a handled failure) or
an uncaught exception (`Except.error`), together with the `st.error`
messages displayed along the way. -/
structure InitResult where
  result : Except String (Option ClientAgent)
  errorsShown : List String
deriving DecidableEq

/-- Embedding of `initialize_client_agent` (lines 38 to 77 of
`streamlit_app.py`).  The `try` block covers only the
`A2AClientToolProvider` construction: a raise there is caught, three
`st.error` messages are shown and `None` is returned.  An empty
`provider.tools` shows two `st.error` messages and returns `None`.  The
`BedrockModel`/`Agent` constructions happen outside any `try`, so a raise
there propagates uncaught. -/
def initialize_client_agent : DiscEnv → InitResult
  | .providerRaises d =>
      ⟨.ok none,
       ["Failed to connect to Supervisor Agent at " ++ SUPERVISOR_URL ++ ".",
        "Please ensure supervisor_agent.py is running.",
        "Details: " ++ d]⟩
  | .providerOk ts br =>
      if ts.isEmpty then
        ⟨.ok none,
         ["No tools discovered from the agent at " ++ SUPERVISOR_URL ++ ".",
          "Ensure the Supervisor Agent has defined tools."]⟩
      else
        match br with
        | some d => ⟨.error d, []⟩
        | none => ⟨.ok (some ⟨SYSTEM_PROMPT, ts, MODEL_ID⟩), []⟩

/-- The `st.cache_resource` slot guarding `initialize_client_agent`:
`none` means no completed call has been cached yet; `some r` means the
value `r` returned by the first completed call is memoized. -/
def CacheSlot : Type := Option (Option ClientAgent)

/-- One call through the `st.cache_resource` wrapper.  A cached value is
returned without running the function (no discovery attempt).  Otherwise
the function runs (one discovery attempt): a returned value is cached,
while an uncaught exception leaves the slot empty.  The `Bool` records
whether a discovery attempt was performed by this call. -/
def cache_resource_step (slot : CacheSlot) (env : DiscEnv) :
    Except String (Option ClientAgent) × CacheSlot × Bool :=
  match slot with
  | some r => (.ok r, some r, false)
  | none =>
      match (initialize_client_agent env).result with
      | .ok r => (.ok r, some r, true)
      | .error d => (.error d, none, true)

/-- A sequence of calls through the `st.cache_resource` wrapper within one
process lifetime, each with its own external environment.  Returns the
per-call (result, discovery-attempted) pairs and the final slot. -/
def cache_resource_calls (slot : CacheSlot) :
    List DiscEnv → List (Except String (Option ClientAgent) × Bool) × CacheSlot
  | [] => ([], slot)
  | env :: rest =>
      match cache_resource_step slot env with
      | (res, slot1, att) =>
          match cache_resource_calls slot1 rest with
          | (out, final) => ((res, att) :: out, final)

/-- Role of one chat message in `st.session_state.messages`. -/
inductive Role where
  | user
  | assistant
deriving DecidableEq

/-- One entry of `st.session_state.messages`: a role/content dictionary. -/
structure Message where
  role : Role
  content : String
deriving DecidableEq

/-- An output stream the process-wide `sys.stdout` variable can point to:
the original inherited stream, or one of the `StringIO` buffers created by
the turn handler (numbered in order of creation). -/
inductive OutStream where
  | original
  | buffer (id : Nat)
deriving DecidableEq

/-- The mutable state the turn handler touches: the session message list,
the process-wide `sys.stdout` variable, a counter numbering the `StringIO`
buffers created so far, the contents of each buffer, and the total text
written to the original inherited stream. -/
structure TurnState where
  messages : List Message
  sysStdout : OutStream
  nextBuf : Nat
  bufContents : Nat → String
  originalOut : String

/-- The state at process start: no messages, `sys.stdout` pointing at the
original stream, no buffers created, nothing written anywhere. -/
def initialTurnState : TurnState :=
  ⟨[], .original, 0, fun _ => "", ""⟩

/-- Write `text` to stream `s`: appended to the original stream's
transcript or to the addressed buffer's contents. -/
def writeTo (s : OutStream) (text : String) (st : TurnState) : TurnState :=
  match s with
  | .original => { st with originalOut := st.originalOut ++ text }
  | .buffer i =>
      { st with
        bufContents := fun j => if j = i then st.bufContents j ++ text else st.bufContents j }

/-- Outcome of the external call `client_agent(prompt)`: it returns a final
response after printing `output` to the current `sys.stdout`, or raises an
`ExecutionError` with `detail` after printing `preOutput`. -/
inductive RunOutcome where
  | success (response : String) (output : String)
  | failure (detail : String) (preOutput : String)
deriving DecidableEq

/-- Whether a `RunOutcome` is a normal return. -/
def RunOutcome.isSuccess : RunOutcome → Bool
  | .success _ _ => true
  | .failure _ _ => false

/-- The text the agent call printed to the current `sys.stdout` before
returning or raising. -/
def RunOutcome.outputOf : RunOutcome → String
  | .success _ o => o
  | .failure _ o => o

/-- What one turn produces besides the new state: the trace rendered in
the status box (`status.code(agent_thoughts, ...)`), if reached, and the
detail of an uncaught exception, if one propagated out of the turn. -/
structure TurnResult where
  state : TurnState
  displayedTrace : Option String
  raised : Option String

/-- Embedding of one turn of the handler (lines 97 to 130 of
`streamlit_app.py`), for a prompt submitted while the agent is available.
The user message is appended first (line 99); the current `sys.stdout` is
saved and replaced by a fresh `StringIO` (lines 108 to 110); the agent
call prints its diagnostic output to the current `sys.stdout` (line 114);
on normal return, `sys.stdout` is restored (line 117), the buffer contents
are read back and rendered as the trace (lines 120 to 124), and the
assistant message is appended (line 130).  If the call raises, nothing
after line 114 runs: `sys.stdout` stays redirected, no trace is rendered,
no assistant message is appended, and the exception propagates. -/
def handleTurn (prompt : String) (run : RunOutcome) (s : TurnState) : TurnResult :=
  let s1 := { s with messages := s.messages ++ [Message.mk .user prompt] }
  let old := s1.sysStdout
  let buf := s1.nextBuf
  let s2 := { s1 with sysStdout := OutStream.buffer buf, nextBuf := s1.nextBuf + 1 }
  match run with
  | .success response output =>
      let s3 := writeTo s2.sysStdout output s2
      let s4 := { s3 with sysStdout := old }
      let thoughts := s4.bufContents buf
      let s5 := { s4 with messages := s4.messages ++ [Message.mk .assistant response] }
      ⟨s5, some thoughts, none⟩
  | .failure detail preOutput =>
      let s3 := writeTo s2.sysStdout preOutput s2
      ⟨s3, none, some detail⟩

/-- A sequence of turns, each a submitted prompt together with the
external outcome of its agent call.  Returns the final state and, per
turn, the trace that turn rendered. -/
def processTurns : List (String × RunOutcome) → TurnState → TurnState × List (Option String)
  | [], s => (s, [])
  | (p, r) :: rest, s =>
      match handleTurn p r s with
      | t =>
          match processTurns rest t.state with
          | (s1, traces) => (s1, t.displayedTrace :: traces)

/-- What the user did during one full rerun of the script: either no
prompt was submitted, or a prompt was submitted and the agent call had the
given external outcome. -/
inductive RerunInput where
  | noPrompt
  | prompt (p : String) (outcome : RunOutcome)

/-- The process-wide state carried across script reruns: the
`st.cache_resource` slot and the turn-handler state (session messages,
`sys.stdout`, buffers). -/
structure AppState where
  cache : CacheSlot
  turn : TurnState

/-- The state when the process starts: empty cache, initial turn state. -/
def initialAppState : AppState :=
  ⟨none, initialTurnState⟩

/-- Observable facts about one script rerun: whether `client_agent(prompt)`
was invoked, whether a discovery attempt was performed, whether the
`st.warning` unavailable branch (line 132) ran, the trace rendered (if
any), and the detail of an uncaught exception (if one aborted the rerun). -/
structure RerunReport where
  ranAgent : Bool
  discoveryAttempted : Bool
  warnedUnavailable : Bool
  displayedTrace : Option String
  raised : Option String
deriving DecidableEq

/-- Embedding of one full rerun of the script body (lines 83 to 132 of
`streamlit_app.py`): `client_agent = initialize_client_agent()` through
the cache, then either the chat branch (line 95, when the cached value is
an agent) or the `st.warning` branch (lines 131 to 132, when it is
`None`).  An exception escaping the initializer aborts the rerun before
any of that. -/
def app_rerun (env : DiscEnv) (inp : RerunInput) (s : AppState) : AppState × RerunReport :=
  match cache_resource_step s.cache env with
  | (res, cache1, att) =>
      match res with
      | .error d => (⟨cache1, s.turn⟩, ⟨false, att, false, none, some d⟩)
      | .ok none => (⟨cache1, s.turn⟩, ⟨false, att, true, none, none⟩)
      | .ok (some _) =>
          match inp with
          | .noPrompt => (⟨cache1, s.turn⟩, ⟨false, att, false, none, none⟩)
          | .prompt p outcome =>
              match handleTurn p outcome s.turn with
              | t => (⟨cache1, t.state⟩, ⟨true, att, false, t.displayedTrace, t.raised⟩)

/-- A sequence of script reruns, each with its own external environment
and user input.  Returns the final state and the per-rerun reports. -/
def app_reruns : AppState → List (DiscEnv × RerunInput) → AppState × List RerunReport
  | s, [] => (s, [])
  | s, (env, inp) :: rest =>
      match app_rerun env inp s with
      | (s1, rep) =>
          match app_reruns s1 rest with
          | (s2, reps) => (s2, rep :: reps)

/-! ### Helper lemmas -/

theorem handleTurn_success_messages (s : TurnState) (p resp out : String) :
    (handleTurn p (.success resp out) s).state.messages =
      s.messages ++ [Message.mk .user p, Message.mk .assistant resp] := by
  simp [handleTurn, writeTo]

theorem handleTurn_success_sysStdout (s : TurnState) (p resp out : String) :
    (handleTurn p (.success resp out) s).state.sysStdout = s.sysStdout := rfl

theorem handleTurn_success_nextBuf (s : TurnState) (p resp out : String) :
    (handleTurn p (.success resp out) s).state.nextBuf = s.nextBuf + 1 := rfl

theorem handleTurn_success_trace (s : TurnState) (p resp out : String) :
    (handleTurn p (.success resp out) s).displayedTrace =
      some (s.bufContents s.nextBuf ++ out) := by
  simp [handleTurn, writeTo]

theorem handleTurn_success_bufContents (s : TurnState) (p resp out : String) (j : Nat) :
    (handleTurn p (.success resp out) s).state.bufContents j =
      if j = s.nextBuf then s.bufContents j ++ out else s.bufContents j := by
  simp [handleTurn, writeTo]

theorem handleTurn_originalOut (s : TurnState) (p : String) (r : RunOutcome) :
    (handleTurn p r s).state.originalOut = s.originalOut := by
  cases r <;> simp [handleTurn, writeTo]

theorem handleTurn_failure_messages (s : TurnState) (p d po : String) :
    (handleTurn p (.failure d po) s).state.messages =
      s.messages ++ [Message.mk .user p] := by
  simp [handleTurn, writeTo]

theorem handleTurn_failure_raised (s : TurnState) (p d po : String) :
    (handleTurn p (.failure d po) s).raised = some d := rfl

theorem handleTurn_failure_trace (s : TurnState) (p d po : String) :
    (handleTurn p (.failure d po) s).displayedTrace = none := rfl

theorem handleTurn_failure_sysStdout (s : TurnState) (p d po : String) :
    (handleTurn p (.failure d po) s).state.sysStdout = OutStream.buffer s.nextBuf := rfl

/-- Buffers not yet created are empty. -/
def bufsFresh (s : TurnState) : Prop :=
  ∀ i, s.nextBuf ≤ i → s.bufContents i = ""

theorem handleTurn_preserves_bufsFresh (s : TurnState) (p : String) (r : RunOutcome)
    (h : bufsFresh s) : bufsFresh (handleTurn p r s).state := by
  intro i hi
  cases r with
  | success resp out =>
      rw [handleTurn_success_nextBuf] at hi
      rw [handleTurn_success_bufContents]
      rw [if_neg (by omega)]
      exact h i (by omega)
  | failure d po =>
      have hnb : (handleTurn p (.failure d po) s).state.nextBuf = s.nextBuf + 1 := rfl
      rw [hnb] at hi
      have hbc : (handleTurn p (.failure d po) s).state.bufContents i =
          if i = s.nextBuf then s.bufContents i ++ po else s.bufContents i := by
        simp [handleTurn, writeTo]
      rw [hbc, if_neg (by omega)]
      exact h i (by omega)

theorem processTurns_originalOut (evs : List (String × RunOutcome)) (s : TurnState) :
    (processTurns evs s).1.originalOut = s.originalOut := by
  induction evs generalizing s with
  | nil => rfl
  | cons e rest ih =>
      obtain ⟨p, r⟩ := e
      calc (processTurns ((p, r) :: rest) s).1.originalOut
          = (processTurns rest (handleTurn p r s).state).1.originalOut := rfl
        _ = (handleTurn p r s).state.originalOut := ih _
        _ = s.originalOut := handleTurn_originalOut s p r

theorem processTurns_traces (evs : List (String × RunOutcome)) (s : TurnState)
    (hf : bufsFresh s) :
    (processTurns evs s).2 =
      evs.map (fun e => if e.2.isSuccess then some e.2.outputOf else none) := by
  induction evs generalizing s with
  | nil => rfl
  | cons e rest ih =>
      obtain ⟨p, r⟩ := e
      cases r with
      | success resp out =>
          have hstep : (processTurns ((p, .success resp out) :: rest) s).2 =
              (handleTurn p (.success resp out) s).displayedTrace ::
                (processTurns rest (handleTurn p (.success resp out) s).state).2 := rfl
          rw [hstep, ih _ (handleTurn_preserves_bufsFresh s p _ hf),
            handleTurn_success_trace, hf s.nextBuf (Nat.le_refl _)]
          simp [RunOutcome.outputOf, RunOutcome.isSuccess]
      | failure d po =>
          have hstep : (processTurns ((p, .failure d po) :: rest) s).2 =
              (handleTurn p (.failure d po) s).displayedTrace ::
                (processTurns rest (handleTurn p (.failure d po) s).state).2 := rfl
          rw [hstep, ih _ (handleTurn_preserves_bufsFresh s p _ hf),
            handleTurn_failure_trace]
          simp [RunOutcome.isSuccess]

theorem processTurns_messages_length (evs : List (String × RunOutcome)) (s : TurnState)
    (h : ∀ e ∈ evs, e.2.isSuccess = true) :
    (processTurns evs s).1.messages.length = s.messages.length + 2 * evs.length := by
  induction evs generalizing s with
  | nil => simp [processTurns]
  | cons e rest ih =>
      obtain ⟨p, r⟩ := e
      have hr : r.isSuccess = true := h (p, r) (List.mem_cons_self _ _)
      cases r with
      | failure d po => simp [RunOutcome.isSuccess] at hr
      | success resp out =>
          have hrest : ∀ e ∈ rest, e.2.isSuccess = true :=
            fun e he => h e (List.mem_cons_of_mem _ he)
          have hstep : (processTurns ((p, .success resp out) :: rest) s).1 =
              (processTurns rest (handleTurn p (.success resp out) s).state).1 := rfl
          rw [hstep, ih _ hrest, handleTurn_success_messages]
          simp
          omega

theorem processTurns_roles (evs : List (String × RunOutcome)) (s : TurnState)
    (h : ∀ e ∈ evs, e.2.isSuccess = true) :
    (processTurns evs s).1.messages.map Message.role =
      s.messages.map Message.role ++
        (List.replicate evs.length [Role.user, Role.assistant]).flatten := by
  induction evs generalizing s with
  | nil => simp [processTurns]
  | cons e rest ih =>
      obtain ⟨p, r⟩ := e
      have hr : r.isSuccess = true := h (p, r) (List.mem_cons_self _ _)
      cases r with
      | failure d po => simp [RunOutcome.isSuccess] at hr
      | success resp out =>
          have hrest : ∀ e ∈ rest, e.2.isSuccess = true :=
            fun e he => h e (List.mem_cons_of_mem _ he)
          have hstep : (processTurns ((p, .success resp out) :: rest) s).1 =
              (processTurns rest (handleTurn p (.success resp out) s).state).1 := rfl
          rw [hstep, ih _ hrest, handleTurn_success_messages]
          simp [List.replicate_succ]

theorem cache_resource_calls_cached (r : Option ClientAgent) (envs : List DiscEnv) :
    cache_resource_calls (some r) envs =
      (envs.map (fun _ => (Except.ok r, false)), some r) := by
  induction envs with
  | nil => rfl
  | cons e rest ih => simp [cache_resource_calls, cache_resource_step, ih]

theorem app_reruns_unavailable (t : TurnState) (steps : List (DiscEnv × RerunInput)) :
    app_reruns ⟨some none, t⟩ steps =
      (⟨some none, t⟩, steps.map (fun _ => ⟨false, false, true, none, none⟩)) := by
  induction steps with
  | nil => rfl
  | cons e rest ih =>
      obtain ⟨env, inp⟩ := e
      simp [app_reruns, app_rerun, cache_resource_step, ih]

/-! ### Claims -/

/-- Counterexample to C1 as stated: `st.cache_resource` memoizes only a
returned value, so when the first call raises uncaught — discovery
succeeds but the `BedrockModel`/`Agent` construction raises, outside the
`try` — nothing is cached and the second call performs discovery again:
two discovery attempts within one process lifetime. -/
theorem cache_retries_after_uncaught_raise_cex :
    cache_resource_calls none
        [DiscEnv.providerOk [⟨"search"⟩] (some "bad credentials"),
         DiscEnv.providerOk [⟨"search"⟩] none] =
      ([(Except.error "bad credentials", true),
        (Except.ok (some ⟨SYSTEM_PROMPT, [⟨"search"⟩], MODEL_ID⟩), true)],
       some (some ⟨SYSTEM_PROMPT, [⟨"search"⟩], MODEL_ID⟩)) := rfl

/-- C1 amended: for every sequence of calls to the session initializer
within one process lifetime whose first call completes (returns, rather
than raising uncaught from the backend/agent construction), at most one
discovery attempt is performed: the first call performs discovery, and
every subsequent call returns the memoized result of the first call
(whether success or failure) without repeating discovery.  A call that
raises uncaught memoizes nothing, and a later call repeats discovery —
see the counterexample above. -/
theorem cache_memoizes_first_call (env0 : DiscEnv) (envs : List DiscEnv)
    (r : Option ClientAgent)
    (h : (initialize_client_agent env0).result = .ok r) :
    cache_resource_calls none (env0 :: envs) =
      ((Except.ok r, true) :: envs.map (fun _ => (Except.ok r, false)), some r) := by
  simp [cache_resource_calls, cache_resource_step, h, cache_resource_calls_cached]

/-- Witness for C1: a first call whose discovery fails with a connection
error is memoized, and a second call returns the memoized `None` without
attempting discovery, even though its environment would now succeed. -/
theorem cache_memoizes_first_call_witness :
    (initialize_client_agent (.providerRaises "connection refused")).result =
      Except.ok none ∧
    cache_resource_calls none
        [DiscEnv.providerRaises "connection refused",
         DiscEnv.providerOk [⟨"search"⟩] none] =
      ([(Except.ok none, true), (Except.ok none, false)], some none) :=
  ⟨rfl,
   cache_memoizes_first_call (.providerRaises "connection refused")
     [DiscEnv.providerOk [⟨"search"⟩] none] none rfl⟩

/-- C5: if discovery reaches the registry but yields zero operations,
initialization fails with the no-capabilities outcome (the `None` marker);
a session with an empty operation set is never constructed or exposed:
every agent the initializer returns has a non-empty tool list. -/
theorem no_empty_session (env : DiscEnv) (a : ClientAgent) (br : Option String)
    (h : (initialize_client_agent env).result = .ok (some a)) :
    a.tools ≠ [] ∧
    (initialize_client_agent (.providerOk [] br)).result = .ok none ∧
    (initialize_client_agent (.providerOk [] br)).errorsShown =
      ["No tools discovered from the agent at " ++ SUPERVISOR_URL ++ ".",
       "Ensure the Supervisor Agent has defined tools."] := by
  refine ⟨?_, by cases br <;> rfl, by cases br <;> rfl⟩
  cases env with
  | providerRaises d => simp [initialize_client_agent] at h
  | providerOk ts br2 =>
      cases ts with
      | nil => simp [initialize_client_agent] at h
      | cons x xs =>
          cases br2 with
          | some d => simp [initialize_client_agent] at h
          | none =>
              simp [initialize_client_agent] at h
              rw [← h]
              simp

/-- Witness for C5: a one-tool discovery yields an agent, and that agent's
tool list is non-empty, while zero-tool discovery yields the `None`
marker and the two no-tools error messages. -/
theorem no_empty_session_witness :
    (initialize_client_agent (.providerOk [⟨"search"⟩] none)).result =
      Except.ok (some ⟨SYSTEM_PROMPT, [⟨"search"⟩], MODEL_ID⟩) ∧
    ((⟨SYSTEM_PROMPT, [⟨"search"⟩], MODEL_ID⟩ : ClientAgent).tools ≠ [] ∧
     (initialize_client_agent (.providerOk [] none)).result = Except.ok none ∧
     (initialize_client_agent (.providerOk [] none)).errorsShown =
       ["No tools discovered from the agent at " ++ SUPERVISOR_URL ++ ".",
        "Ensure the Supervisor Agent has defined tools."]) :=
  ⟨rfl, no_empty_session (.providerOk [⟨"search"⟩] none) _ none rfl⟩

/-- C9: the caught-connection-error branch covers only the provider
construction; when discovery succeeds with a non-empty tool list but the
backend or agent construction raises, the exception propagates uncaught
out of the initializer (an `Except.error`), and neither the
connection-error messages nor the no-tools messages are displayed. -/
theorem backend_exception_uncaught (ts : List Tool) (d : String) (h : ts ≠ []) :
    (initialize_client_agent (.providerOk ts (some d))).result = .error d ∧
    (initialize_client_agent (.providerOk ts (some d))).errorsShown = [] := by
  cases ts with
  | nil => exact absurd rfl h
  | cons x xs => exact ⟨rfl, rfl⟩

/-- Witness for C9: with one discovered tool and a raising backend
constructor, the initializer ends in an uncaught exception and shows no
error message. -/
theorem backend_exception_uncaught_witness :
    ([⟨"search"⟩] : List Tool) ≠ [] ∧
    ((initialize_client_agent (.providerOk [⟨"search"⟩] (some "bad credentials"))).result =
        .error "bad credentials" ∧
     (initialize_client_agent (.providerOk [⟨"search"⟩] (some "bad credentials"))).errorsShown = []) :=
  ⟨by simp, backend_exception_uncaught [⟨"search"⟩] "bad credentials" (by simp)⟩

/-- C10: for every run invocation that returns normally, the process-wide
`sys.stdout` is restored to exactly its pre-call value, so a successful
turn leaves the global output stream variable unchanged. -/
theorem stdout_restored_on_success (s : TurnState) (p resp out : String) :
    (handleTurn p (.success resp out) s).state.sysStdout = s.sysStdout :=
  handleTurn_success_sysStdout s p resp out

/-- C7: for every completed turn, a trace is rendered
(`displayedTrace.isSome`), but the entries appended to the conversation
log are exactly the user request and the assistant response — the trace
text is never persisted in the log. -/
theorem trace_displayed_not_persisted (s : TurnState) (p resp out : String) :
    (handleTurn p (.success resp out) s).state.messages =
      s.messages ++ [Message.mk .user p, Message.mk .assistant resp] ∧
    (handleTurn p (.success resp out) s).displayedTrace.isSome = true :=
  ⟨handleTurn_success_messages s p resp out, by rw [handleTurn_success_trace]; rfl⟩

/-- C8: the handler appends the user turn to the log before invoking the
run operation, so when the run call raises and the turn does not complete,
the log has gained exactly the user entry and ends with it, with no
corresponding assistant entry. -/
theorem log_ends_with_user_on_failure (s : TurnState) (p d po : String) :
    (handleTurn p (.failure d po) s).state.messages =
      s.messages ++ [Message.mk .user p] ∧
    (handleTurn p (.failure d po) s).state.messages.getLast? =
      some (Message.mk .user p) ∧
    (handleTurn p (.failure d po) s).raised = some d := by
  refine ⟨handleTurn_failure_messages s p d po, ?_, handleTurn_failure_raised s p d po⟩
  rw [handleTurn_failure_messages]
  simp

/-- C4: after N completed turns from the initial state, the conversation
log has exactly 2N entries whose roles alternate
User, Assistant, User, Assistant, ... starting with User. -/
theorem log_alternates (evs : List (String × RunOutcome))
    (h : ∀ e ∈ evs, e.2.isSuccess = true) :
    (processTurns evs initialTurnState).1.messages.map Message.role =
      (List.replicate evs.length [Role.user, Role.assistant]).flatten ∧
    (processTurns evs initialTurnState).1.messages.length = 2 * evs.length := by
  constructor
  · have := processTurns_roles evs initialTurnState h
    simpa [initialTurnState] using this
  · have := processTurns_messages_length evs initialTurnState h
    simpa [initialTurnState] using this

/-- Witness for C4: two completed turns produce a four-entry log with
roles User, Assistant, User, Assistant. -/
theorem log_alternates_witness :
    (∀ e ∈ [("find X", RunOutcome.success "found it" "searching\n"),
            ("summarize", RunOutcome.success "summary" "thinking\n")],
        e.2.isSuccess = true) ∧
    ((processTurns
        [("find X", RunOutcome.success "found it" "searching\n"),
         ("summarize", RunOutcome.success "summary" "thinking\n")]
        initialTurnState).1.messages.map Message.role =
      [Role.user, Role.assistant, Role.user, Role.assistant] ∧
     (processTurns
        [("find X", RunOutcome.success "found it" "searching\n"),
         ("summarize", RunOutcome.success "summary" "thinking\n")]
        initialTurnState).1.messages.length = 4) := by
  have h : ∀ e ∈ [("find X", RunOutcome.success "found it" "searching\n"),
            ("summarize", RunOutcome.success "summary" "thinking\n")],
      e.2.isSuccess = true := by decide
  have hc := log_alternates
    [("find X", RunOutcome.success "found it" "searching\n"),
     ("summarize", RunOutcome.success "summary" "thinking\n")] h
  exact ⟨h, by simpa using hc⟩

/-- C3: over any history of turns — successful and failed run calls
mixed in any order — each successful run call's rendered trace is exactly
the diagnostic output produced during that call, never output from any
other call (a failed call renders no trace), and none of that output
reaches the original inherited output stream.  Each call writes only into
its own freshly created buffer, even after an earlier failed call has
left `sys.stdout` pointing at a stale buffer. -/
theorem trace_isolation (evs : List (String × RunOutcome)) :
    (processTurns evs initialTurnState).2 =
      evs.map (fun e => if e.2.isSuccess then some e.2.outputOf else none) ∧
    (processTurns evs initialTurnState).1.originalOut = "" := by
  refine ⟨processTurns_traces evs initialTurnState ?_, ?_⟩
  · intro i _
    rfl
  · simpa [initialTurnState] using processTurns_originalOut evs initialTurnState

/-- Witness for C3: a failed turn — which leaves `sys.stdout` on its own
buffer — followed by a successful turn: the successful turn still renders
exactly its own output, the failed turn renders none, and the original
stream receives nothing. -/
theorem trace_isolation_witness :
    (processTurns
        [("find X", RunOutcome.failure "backend timeout" "early log\n"),
         ("summarize", RunOutcome.success "summary" "invoked summarize\n")]
        initialTurnState).2 =
      [none, some "invoked summarize\n"] ∧
    (processTurns
        [("find X", RunOutcome.failure "backend timeout" "early log\n"),
         ("summarize", RunOutcome.success "summary" "invoked summarize\n")]
        initialTurnState).1.originalOut = "" := by
  have hc := trace_isolation
    [("find X", RunOutcome.failure "backend timeout" "early log\n"),
     ("summarize", RunOutcome.success "summary" "invoked summarize\n")]
  simpa [RunOutcome.isSuccess, RunOutcome.outputOf] using hc

/-- C6: if the first initialization fails (connection error caught, or no
capabilities), the `None` outcome is memoized and the handler is
unavailable for the remainder of the process: that rerun and every
subsequent rerun shows the warning, ignores any user input without ever
invoking the run operation, performs no further discovery, leaves the
turn state untouched, and the cache stays at the `None` marker — there is
no transition out. -/
theorem unavailable_is_terminal (env0 : DiscEnv) (inp0 : RerunInput)
    (rest : List (DiscEnv × RerunInput))
    (h : (initialize_client_agent env0).result = .ok none) :
    app_reruns initialAppState ((env0, inp0) :: rest) =
      (⟨some none, initialTurnState⟩,
       RerunReport.mk false true true none none ::
         rest.map (fun _ => ⟨false, false, true, none, none⟩)) := by
  have hstep : app_rerun env0 inp0 initialAppState =
      (⟨some none, initialTurnState⟩, ⟨false, true, true, none, none⟩) := by
    simp [app_rerun, cache_resource_step, initialAppState, h]
  have : app_reruns initialAppState ((env0, inp0) :: rest) =
      match app_rerun env0 inp0 initialAppState with
      | (s1, rep) =>
          match app_reruns s1 rest with
          | (s2, reps) => (s2, rep :: reps) := rfl
  rw [this, hstep]
  simp [app_reruns_unavailable]

/-- Witness for C6: discovery fails on the first rerun; a later rerun with
a submitted prompt and a now-healthy environment still only warns — the
agent is never invoked and no discovery is re-attempted. -/
theorem unavailable_is_terminal_witness :
    (initialize_client_agent (.providerRaises "connection refused")).result =
      Except.ok none ∧
    app_reruns initialAppState
        [(DiscEnv.providerRaises "connection refused", RerunInput.noPrompt),
         (DiscEnv.providerOk [⟨"search"⟩] none,
          RerunInput.prompt "find X" (.success "found it" "log\n"))] =
      (⟨some none, initialTurnState⟩,
       [⟨false, true, true, none, none⟩, ⟨false, false, true, none, none⟩]) :=
  ⟨rfl,
   unavailable_is_terminal (.providerRaises "connection refused") .noPrompt
     [(DiscEnv.providerOk [⟨"search"⟩] none,
       RerunInput.prompt "find X" (.success "found it" "log\n"))] rfl⟩

/-- Counterexample to C2 as stated: with an initialized session, a run
call raising an `ExecutionError` with detail "backend timeout" does NOT
add an Assistant entry carrying the error text to the conversation log —
the log gains only the User entry — and no trace is rendered; the
exception propagates out of the turn. -/
theorem run_error_not_rendered_cex :
    (handleTurn "find X" (.failure "backend timeout" "") initialTurnState).raised =
      some "backend timeout" ∧
    (handleTurn "find X" (.failure "backend timeout" "") initialTurnState).state.messages =
      [Message.mk Role.user "find X"] ∧
    (handleTurn "find X" (.failure "backend timeout" "") initialTurnState).displayedTrace =
      none :=
  ⟨rfl, rfl, rfl⟩

/-- C2 amended: when the session was initialized successfully and the run
call raises an `ExecutionError`, the exception propagates uncaught out of
the turn handler — the turn is not completed: the log gains only the User
entry (no Assistant entry carrying the error text), no trace is rendered,
and `sys.stdout` is left pointing at the turn's buffer.  The memoized
session itself is unchanged, so a later rerun may still attempt a run. -/
theorem run_error_aborts_turn (a : ClientAgent) (s : AppState) (env : DiscEnv)
    (p d po : String) (h : s.cache = some (some a)) :
    (app_rerun env (.prompt p (.failure d po)) s).2.raised = some d ∧
    (app_rerun env (.prompt p (.failure d po)) s).2.displayedTrace = none ∧
    (app_rerun env (.prompt p (.failure d po)) s).1.cache = some (some a) ∧
    (app_rerun env (.prompt p (.failure d po)) s).1.turn.messages =
      s.turn.messages ++ [Message.mk .user p] ∧
    (app_rerun env (.prompt p (.failure d po)) s).1.turn.sysStdout =
      OutStream.buffer s.turn.nextBuf := by
  have hrw : app_rerun env (.prompt p (.failure d po)) s =
      (⟨some (some a), (handleTurn p (.failure d po) s.turn).state⟩,
       ⟨true, false, false, (handleTurn p (.failure d po) s.turn).displayedTrace,
        (handleTurn p (.failure d po) s.turn).raised⟩) := by
    simp [app_rerun, cache_resource_step, h]
  rw [hrw]
  exact ⟨handleTurn_failure_raised s.turn p d po, handleTurn_failure_trace s.turn p d po,
    rfl, handleTurn_failure_messages s.turn p d po, handleTurn_failure_sysStdout s.turn p d po⟩

/-- Witness for the amended C2: a cached one-tool session, a prompt whose
run raises "backend timeout": the exception propagates, the log gains only
the User entry, no trace is rendered, stdout stays on buffer 0, and the
session stays cached. -/
theorem run_error_aborts_turn_witness :
    (AppState.mk (some (some ⟨SYSTEM_PROMPT, [⟨"search"⟩], MODEL_ID⟩))
        initialTurnState).cache =
      some (some ⟨SYSTEM_PROMPT, [⟨"search"⟩], MODEL_ID⟩) ∧
    ((app_rerun (.providerOk [⟨"search"⟩] none)
        (.prompt "find X" (.failure "backend timeout" ""))
        (AppState.mk (some (some ⟨SYSTEM_PROMPT, [⟨"search"⟩], MODEL_ID⟩))
          initialTurnState)).2.raised = some "backend timeout" ∧
     (app_rerun (.providerOk [⟨"search"⟩] none)
        (.prompt "find X" (.failure "backend timeout" ""))
        (AppState.mk (some (some ⟨SYSTEM_PROMPT, [⟨"search"⟩], MODEL_ID⟩))
          initialTurnState)).2.displayedTrace = none ∧
     (app_rerun (.providerOk [⟨"search"⟩] none)
        (.prompt "find X" (.failure "backend timeout" ""))
        (AppState.mk (some (some ⟨SYSTEM_PROMPT, [⟨"search"⟩], MODEL_ID⟩))
          initialTurnState)).1.cache =
        some (some ⟨SYSTEM_PROMPT, [⟨"search"⟩], MODEL_ID⟩) ∧
     (app_rerun (.providerOk [⟨"search"⟩] none)
        (.prompt "find X" (.failure "backend timeout" ""))
        (AppState.mk (some (some ⟨SYSTEM_PROMPT, [⟨"search"⟩], MODEL_ID⟩))
          initialTurnState)).1.turn.messages =
        [] ++ [Message.mk .user "find X"] ∧
     (app_rerun (.providerOk [⟨"search"⟩] none)
        (.prompt "find X" (.failure "backend timeout" ""))
        (AppState.mk (some (some ⟨SYSTEM_PROMPT, [⟨"search"⟩], MODEL_ID⟩))
          initialTurnState)).1.turn.sysStdout = OutStream.buffer 0) :=
  ⟨rfl,
   run_error_aborts_turn ⟨SYSTEM_PROMPT, [⟨"search"⟩], MODEL_ID⟩
     (AppState.mk (some (some ⟨SYSTEM_PROMPT, [⟨"search"⟩], MODEL_ID⟩)) initialTurnState)
     (.providerOk [⟨"search"⟩] none) "find X" "backend timeout" "" rfl⟩
